import Mathlib

/-!
Shallow embedding of the go-tunnel repository (package `tunnel`):
endpoint parsing helpers (`tunnel.go`) and the SSH connection-forwarding
engine (`ssh.go`), together with theorems about their behaviour.

Machine integers are modelled as `Int`/`Nat` (no port arithmetic in the
source can overflow), Go `(T, error)` results as `Except String T`, and
Go maps as functions into `Option`.
-/

namespace GoTunnel

/-! ## Models of the Go standard-library functions used by the source -/

/-- Model of `strings.Split(s, "://")` on the character list of `s`:
splits around each non-overlapping occurrence of `"://"`, scanning left
to right, always returning at least one (possibly empty) segment. -/
def splitProtoSep : List Char → List (List Char)
  | [] => [[]]
  | ':' :: '/' :: '/' :: rest => [] :: splitProtoSep rest
  | c :: rest =>
    match splitProtoSep rest with
    | [] => [[c]]
    | seg :: segs => (c :: seg) :: segs

/-- Model of `strings.Split(s, ":")` on the character list of `s`. -/
def splitColon : List Char → List (List Char)
  | [] => [[]]
  | ':' :: rest => [] :: splitColon rest
  | c :: rest =>
    match splitColon rest with
    | [] => [[c]]
    | seg :: segs => (c :: seg) :: segs

/-- `strings.Split(s, "://")` as a function on `String`. -/
def goSplitProtoSep (s : String) : List String :=
  (splitProtoSep s.toList).map String.mk

/-- `strings.Split(s, ":")` as a function on `String`. -/
def goSplitColon (s : String) : List String :=
  (splitColon s.toList).map String.mk

/-- Parse a non-empty run of decimal digits, accumulating into `acc`;
any non-digit character makes the whole parse fail. -/
def parseNatDigitsAux : List Char → Nat → Option Nat
  | [], acc => some acc
  | c :: rest, acc =>
    if c.isDigit then parseNatDigitsAux rest (acc * 10 + (c.toNat - 48))
    else none

/-- Model of Go `strconv.Atoi`: an optional sign followed by at least one
decimal digit; anything else is a parse error (`none`). -/
def atoi (s : String) : Option Int :=
  match s.toList with
  | [] => none
  | c :: rest =>
    if c = '-' then
      match rest with
      | [] => none
      | _ :: _ => (parseNatDigitsAux rest 0).map (fun n => -(n : Int))
    else if c = '+' then
      match rest with
      | [] => none
      | _ :: _ => (parseNatDigitsAux rest 0).map (fun n => (n : Int))
    else
      (parseNatDigitsAux (c :: rest) 0).map (fun n => (n : Int))

/-! ## `tunnel.go`: configuration and endpoint parsing -/

/-- `TunnelConfig` (tunnel.go): the immutable tunnel configuration. -/
structure TunnelConfig where
  Protocol : String
  TunnelEndpoint : String
  Username : String
  Password : String
  RemoteAddr : String
  RemotePort : Int
  TunneledProtocol : String
deriving DecidableEq

/-- `defaultProtocolPorts` (tunnel.go): the default-port table
`{"http": "80", "https": "443"}`, modelled as a partial map. -/
def defaultProtocolPorts (protocol : String) : Option String :=
  if protocol = "http" then some "80"
  else if protocol = "https" then some "443"
  else none

/-- `getTunneledProtocolAndRemoteAddr` (tunnel.go): split off an optional
`protocol://` prefix; with no prefix the protocol defaults to `"http"`. -/
def getTunneledProtocolAndRemoteAddr (remoteAddr : String) : String × String :=
  let protocolSplit := goSplitProtoSep remoteAddr
  if protocolSplit.length = 1 then
    ("http", protocolSplit.getD 0 "")
  else
    (protocolSplit.getD 0 "", protocolSplit.getD 1 "")

/-- `splitAddrAndPort` (tunnel.go): split `host[:port]`, defaulting the
port from `defaultProtocolPorts` when absent. -/
def splitAddrAndPort (addrAndPort protocol : String) : Except String (String × Int) :=
  let addrPortSplit := goSplitColon addrAndPort
  let addr := addrPortSplit.getD 0 ""
  let portStrRes : Except String String :=
    if addrPortSplit.length = 1 then
      match defaultProtocolPorts protocol with
      | some defaultPort => Except.ok defaultPort
      | none => Except.error ("could not get default port for protocol " ++ protocol)
    else
      Except.ok (addrPortSplit.getD 1 "")
  match portStrRes with
  | Except.error e => Except.error e
  | Except.ok portStr =>
    if addr.length = 0 then Except.error "empty address/hostname provided."
    else if portStr.length = 0 then Except.error "empty port provided."
    else
      match atoi portStr with
      | some portNum => Except.ok (addr, portNum)
      | none => Except.error ("invalid endpoint provided: " ++ addrAndPort)

/-- `BuildTunnelConfig` (tunnel.go): build a `TunnelConfig` from a
destination endpoint string, resolving protocol and port. -/
def BuildTunnelConfig (protocol tunnelEndpoint destEndpoint user password : String) :
    Except String TunnelConfig :=
  let pr := getTunneledProtocolAndRemoteAddr destEndpoint
  match splitAddrAndPort pr.2 pr.1 with
  | Except.error e => Except.error e
  | Except.ok ap =>
    Except.ok { Protocol := protocol, TunnelEndpoint := tunnelEndpoint, Username := user,
                Password := password, RemoteAddr := ap.1, RemotePort := ap.2,
                TunneledProtocol := pr.1 }

/-- `getEndpointInfo` (tunnel.go): parse `[protocol://]host[:port]` into a
(protocol, host, port) string triple; with no prefix the protocol stays
the empty string, and a missing port is defaulted from
`defaultProtocolPorts` keyed by that (possibly empty) protocol. -/
def getEndpointInfo (endpointAddr : String) : Except String (String × String × String) :=
  let protocolSplit := goSplitProtoSep endpointAddr
  let protocol := if protocolSplit.length = 1 then "" else protocolSplit.getD 0 ""
  let addrAndPort :=
    if protocolSplit.length = 1 then protocolSplit.getD 0 "" else protocolSplit.getD 1 ""
  let addrPortSplit := goSplitColon addrAndPort
  let addr := addrPortSplit.getD 0 ""
  let portRes : Except String String :=
    if addrPortSplit.length = 1 then
      match defaultProtocolPorts protocol with
      | some defaultPort => Except.ok defaultPort
      | none => Except.error ("could not get default port for protocol " ++ protocol)
    else
      Except.ok (addrPortSplit.getD 1 "")
  match portRes with
  | Except.error e => Except.error e
  | Except.ok port =>
    if addr.length = 0 then Except.error "empty address/hostname provided."
    else if port.length = 0 then Except.error "empty port provided."
    else Except.ok (protocol, addr, port)

example : goSplitProtoSep "https://10.10.10.10:8888" = ["https", "10.10.10.10:8888"] := by decide
example : goSplitColon "10.10.10.10:8888" = ["10.10.10.10", "8888"] := by decide
example : goSplitColon "host" = ["host"] := by decide
example : atoi "8888" = some 8888 := by decide
example : atoi "1.2.3.4:22" = none := by decide
example : getTunneledProtocolAndRemoteAddr "10.10.10.10:8888" = ("http", "10.10.10.10:8888") := by decide
example : splitAddrAndPort "host" "https" = Except.ok ("host", 443) := rfl
example : getEndpointInfo "10.10.10.10" =
    Except.error "could not get default port for protocol " := rfl

/-! ## `ssh.go`: the SSH connection-forwarding engine

Network handles (`net.Conn`, `ssh.Client`, the remote stream) are
modelled as `Conn` values carrying an identity and an open/closed bit;
`Close()` marks the handle closed and is total (Go's `Close` on an
already-closed handle returns an error that the source ignores). -/

/-- A network handle (local socket, SSH client session, or remote
stream) with its open/closed status. -/
structure Conn where
  id : Nat
  closed : Bool
deriving DecidableEq

/-- `Close()` on a handle: marks it closed; total and idempotent. -/
def Conn.close (c : Conn) : Conn := { c with closed := true }

/-- `ssh.ClientConfig` as built by `SshTunnelFactory`: password
authentication for the configured user. -/
structure ClientConfig where
  user : String
  password : String
deriving DecidableEq

/-- `minLocalPort` (ssh.go). -/
def minLocalPort : Nat := 50000

/-- `maxLocalPort` (ssh.go). -/
def maxLocalPort : Nat := 65000

/-- Model of `rand.Intn(n)`: some value in `[0, n)` drawn from the
random source, modelled as `rnd % n` for an arbitrary draw `rnd`. -/
def randIntn (rnd n : Nat) : Nat := rnd % n

/-- `getRandomListeningPort` (ssh.go): `rand.Intn(maxLocalPort-minLocalPort) + minLocalPort`. -/
def getRandomListeningPort (rnd : Nat) : Nat :=
  randIntn rnd (maxLocalPort - minLocalPort) + minLocalPort

/-- `SshTunnel` (ssh.go): the engine state. -/
structure SshTunnel where
  name : String
  sshUsername : String
  sshPassword : String
  tunneledProtocol : String
  localTunnelEndpoint : String
  serverTunnelEndpoint : String
  remoteEndpoint : String
  config : ClientConfig
  localConns : List Conn
  sshConns : List Conn
  remoteConns : List Conn
  willClose : Bool
  isClosed : Bool
deriving DecidableEq

/-- `getRelativeRemoteAddr` (ssh.go): when the SSH server address equals
the final remote address, substitute `"localhost"`. -/
def getRelativeRemoteAddr (sshServerAddr remoteAddr : String) : String :=
  if sshServerAddr = remoteAddr then "localhost" else remoteAddr

/-- `getSSHServerAddrAndPort` (ssh.go): a purely numeric tunnel endpoint
is taken as a port on the remote address; otherwise split `host[:port]`. -/
def getSSHServerAddrAndPort (tunnelConfig : TunnelConfig) : Except String (String × Int) :=
  match atoi tunnelConfig.TunnelEndpoint with
  | some portNum => Except.ok (tunnelConfig.RemoteAddr, portNum)
  | none => splitAddrAndPort tunnelConfig.TunnelEndpoint tunnelConfig.TunneledProtocol

/-- `SshTunnelFactory` (ssh.go): construct the engine from a
configuration, choosing the local port from the random draw `rnd`.
Fields not assigned in the Go composite literal keep their zero value. -/
def SshTunnelFactory (tunnelConfig : TunnelConfig) (rnd : Nat) : Except String SshTunnel :=
  let clientConfig : ClientConfig :=
    { user := tunnelConfig.Username, password := tunnelConfig.Password }
  match getSSHServerAddrAndPort tunnelConfig with
  | Except.error e => Except.error e
  | Except.ok sp =>
    let localPortNum := getRandomListeningPort rnd
    let relativeRemoteAddr := getRelativeRemoteAddr sp.1 tunnelConfig.RemoteAddr
    Except.ok
      { name := tunnelConfig.Protocol,
        sshUsername := "", sshPassword := "",
        localTunnelEndpoint := "localhost:" ++ toString localPortNum,
        serverTunnelEndpoint := sp.1 ++ ":" ++ toString sp.2,
        remoteEndpoint := relativeRemoteAddr ++ ":" ++ toString tunnelConfig.RemotePort,
        config := clientConfig,
        tunneledProtocol := tunnelConfig.TunneledProtocol,
        localConns := [], sshConns := [], remoteConns := [],
        willClose := false, isClosed := false }

/-- `SshTunnel.GetName` (ssh.go). -/
def SshTunnel.GetName (s : SshTunnel) : String := s.name

/-- `SshTunnel.GetLocalEndpoint` (ssh.go): `tunneledProtocol://localTunnelEndpoint`. -/
def SshTunnel.GetLocalEndpoint (s : SshTunnel) : String :=
  s.tunneledProtocol ++ "://" ++ s.localTunnelEndpoint

/-- `SshTunnel.GetRemoteEndpoint` (ssh.go): `tunneledProtocol://remoteEndpoint`. -/
def SshTunnel.GetRemoteEndpoint (s : SshTunnel) : String :=
  s.tunneledProtocol ++ "://" ++ s.remoteEndpoint

/-- Observable actions performed by `Stop` (ssh.go), in execution order. -/
inductive TunnelEvent where
  | log (msg : String)
  | setWillClose
  | closeLocal (c : Conn)
  | closeSsh (c : Conn)
  | closeRemote (c : Conn)
  | setIsClosed
deriving DecidableEq

/-- Whether a `Stop` action closes a tracked resource. -/
def eventIsClose : TunnelEvent → Bool
  | TunnelEvent.closeLocal _ => true
  | TunnelEvent.closeSsh _ => true
  | TunnelEvent.closeRemote _ => true
  | _ => false

/-- `SshTunnel.Stop` (ssh.go), net effect on the engine state: set
`willClose`, close every tracked local socket, SSH session and remote
stream, set `isClosed`. -/
def SshTunnel.Stop (s : SshTunnel) : SshTunnel :=
  { s with willClose := true,
           localConns := s.localConns.map Conn.close,
           sshConns := s.sshConns.map Conn.close,
           remoteConns := s.remoteConns.map Conn.close,
           isClosed := true }

/-- `SshTunnel.Stop` (ssh.go), as the ordered sequence of actions its
body performs: the log line, then `willClose = true`, then the three
close loops in source order, then `isClosed = true`. -/
def SshTunnel.StopTrace (s : SshTunnel) : List TunnelEvent :=
  TunnelEvent.log "close conns established by tunnl" :: TunnelEvent.setWillClose ::
    (s.localConns.map TunnelEvent.closeLocal ++ s.sshConns.map TunnelEvent.closeSsh ++
     s.remoteConns.map TunnelEvent.closeRemote ++ [TunnelEvent.setIsClosed])

/-- The state shared by the two copy tasks of one forwarding pipeline:
its resource triple and the engine flags they read and write. -/
structure ForwardPipeline where
  localConn : Conn
  remoteConn : Conn
  serverConn : Conn
  willClose : Bool
  isClosed : Bool
deriving DecidableEq

/-- `forwarderFunc` (ssh.go, inside `forwardConnection`): one copy task.
`copyErr` is the error result of `io.Copy` (`none` = clean EOF). On an
error, the task logs it only when `willClose` is false, closes
`localConn`, `remoteConn` and `serverConn`, and sets `isClosed`; the
deferred `writer.Close()`/`reader.Close()` then close the local and
remote handles again (a no-op on already-closed handles). Returns the
resulting pipeline state and the log lines emitted. -/
def forwarderFunc (p : ForwardPipeline) (copyErr : Option String) :
    ForwardPipeline × List String :=
  match copyErr with
  | some e =>
    let logs :=
      if p.willClose then []
      else ["[!] I/O copy error when forwarding through tunnel: " ++ e]
    let p1 := { p with localConn := p.localConn.close, remoteConn := p.remoteConn.close,
                       serverConn := p.serverConn.close, isClosed := true }
    ({ p1 with localConn := p1.localConn.close, remoteConn := p1.remoteConn.close }, logs)
  | none =>
    ({ p with localConn := p.localConn.close, remoteConn := p.remoteConn.close }, [])

/-- Observable actions performed by `Start` (ssh.go). -/
inductive StartEvent where
  | log (msg : String)
  | sendReady (ready : Bool)
  | acceptConn (c : Conn)
  | spawnForward (c : Conn)
deriving DecidableEq

/-- The accept loop of `Start` (ssh.go), run over a finite schedule of
accept results (`error e` = failed accept, logged, loop continues;
`ok c` = accepted socket, tracked and handed to a forwarding pipeline). -/
def acceptLoop (s : SshTunnel) : List (Except String Conn) → SshTunnel × List StartEvent
  | [] => (s, [])
  | Except.error e :: rest =>
    let r := acceptLoop s rest
    (r.1, StartEvent.log ("[!] Error accepting local SSH tunnel connection: " ++ e) :: r.2)
  | Except.ok localConn :: rest =>
    let s1 := { s with localConns := s.localConns ++ [localConn] }
    let r := acceptLoop s1 rest
    (r.1, StartEvent.acceptConn localConn :: StartEvent.spawnForward localConn :: r.2)

/-- `SshTunnel.Start` (ssh.go). `bindErr` is the result of binding the
local listener (`some e` = bind failure). On failure: log, send `false`
on the readiness channel, return at once. On success: send `true`, then
run the accept loop over the schedule `accepts`. -/
def SshTunnel.Start (s : SshTunnel) (bindErr : Option String)
    (accepts : List (Except String Conn)) : SshTunnel × List StartEvent :=
  let startLogs := [StartEvent.log ("Starting local tunnel endpoint at " ++ s.localTunnelEndpoint),
    StartEvent.log ("Setting server tunnel endpoint at " ++ s.serverTunnelEndpoint),
    StartEvent.log ("Setting remote endpoint at " ++ s.remoteEndpoint)]
  match bindErr with
  | some e =>
    (s, startLogs ++ [StartEvent.log ("[!] Error setting SSH tunnel listener: " ++ e),
        StartEvent.sendReady false])
  | none =>
    let r := acceptLoop s accepts
    (r.1, startLogs ++ StartEvent.sendReady true :: r.2)

/-! ## `tunnel.go`: factory registry and fast start -/

/-- `CommunicationTunnelFactories` (tunnel.go) after the `init` of
ssh.go has run: the map `{"SSH": SshTunnelFactory}`, with the factory's
random draw made explicit. -/
def CommunicationTunnelFactories (rnd : Nat) :
    String → Option (TunnelConfig → Except String SshTunnel) :=
  fun nm => if nm = "SSH" then some (fun cfg => SshTunnelFactory cfg rnd) else none

/-- `FastStartTunnel` (tunnel.go): look up the factory, construct the
tunnel, schedule `Start` concurrently and block on the readiness
channel. `ready` is the boolean value received from that channel (the
value `Start` sent: `false` on bind failure). The source discards the
received value and returns `(tunnelInstance, nil)` unconditionally. -/
def FastStartTunnel (tunnelConfig : TunnelConfig) (rnd : Nat) (ready : Bool) :
    Except String SshTunnel :=
  match CommunicationTunnelFactories rnd tunnelConfig.Protocol with
  | none => Except.error ("not supported tunnel protocol: " ++ tunnelConfig.Protocol)
  | some tunnelFactoryFunc =>
    match tunnelFactoryFunc tunnelConfig with
    | Except.error e => Except.error ("create tunnel instance failed, err: " ++ e)
    | Except.ok tunnelInstance =>
      let _received := ready
      Except.ok tunnelInstance

/-- The configuration used by the repository's example program. -/
def exampleConfig : TunnelConfig :=
  { Protocol := "SSH", TunnelEndpoint := "10.50.122.50:22", Username := "root",
    Password := "dbapp#2023", RemoteAddr := "192.168.1.111", RemotePort := 80,
    TunneledProtocol := "http" }

/-! ## Data plane of one forwarding pipeline (`io.Copy` model) -/

/-- One result of a `Read` on a byte stream: a chunk of bytes, a clean
end of stream, or an I/O error. -/
inductive ReadResult where
  | chunk (bytes : List Nat)
  | eof
  | fail (e : String)
deriving DecidableEq

/-- Model of `io.Copy(dst, src)`: read chunks from `src` and write each
one to `dst`, in order, until end of stream (error result `none`) or a
read error (error result `some e`). Returns the byte sequence written
to `dst` and the error result. -/
def ioCopy : List ReadResult → List Nat × Option String
  | [] => ([], none)
  | ReadResult.chunk bs :: rest =>
    let r := ioCopy rest
    (bs ++ r.1, r.2)
  | ReadResult.eof :: _ => ([], none)
  | ReadResult.fail e :: _ => ([], some e)

/-- The two copy tasks spawned by `forwardConnection` (ssh.go):
`forwarderFunc(localConn, remoteConn)` copies what is read from the
remote stream to the local socket, and `forwarderFunc(remoteConn,
localConn)` copies what is read from the local socket to the remote
stream. Given the read schedules of the local socket (`localReads`,
bytes arriving from the client) and of the remote stream
(`remoteReads`, bytes arriving from the destination), returns the byte
sequences written to the remote stream and to the local socket. -/
def forwardConnectionCopies (localReads remoteReads : List ReadResult) :
    (List Nat × Option String) × (List Nat × Option String) :=
  (ioCopy localReads, ioCopy remoteReads)

/-! ## Theorems -/

/-- Closing a handle twice is the same as closing it once. -/
theorem conn_close_close (c : Conn) : c.close.close = c.close := rfl

/-- `io.Copy` over a stream of chunks ending in a clean EOF writes
exactly the concatenation of the chunks, in order, and reports no error. -/
theorem ioCopy_chunks_then_eof (chunks : List (List Nat)) :
    ioCopy (chunks.map ReadResult.chunk ++ [ReadResult.eof]) = (chunks.flatten, none) := by
  induction chunks with
  | nil => rfl
  | cons c cs ih => simp [ioCopy, ih]

/-- Claim C8: for every random draw, the local listening port chosen at
construction time satisfies `50000 ≤ port < 65000`. -/
theorem local_port_in_range (rnd : Nat) :
    50000 ≤ getRandomListeningPort rnd ∧ getRandomListeningPort rnd < 65000 := by
  unfold getRandomListeningPort randIntn minLocalPort maxLocalPort
  omega

/-- Claim C4: `Stop` is idempotent — a second call raises no error (it
is a total function of the state) and leaves the engine state, flags
and tracked collections included, identical to the state after the
first call. -/
theorem stop_idempotent (s : SshTunnel) : s.Stop.Stop = s.Stop := by
  cases s with
  | mk nm su sp tp le se re cfg lc sc rc wc ic =>
    simp [SshTunnel.Stop, List.map_map,
      show Conn.close ∘ Conn.close = Conn.close from funext fun _ => rfl]

/-- Claim C3: `Stop` sets `willClose` strictly before any close action
(the actions preceding `setWillClose` in the trace close nothing),
then closes every tracked local socket, every tracked SSH session and
every tracked remote stream, in that order and unconditionally, and the
resulting state has `willClose` and `isClosed` true with every tracked
handle closed. -/
theorem stop_sets_flag_then_closes_in_order (s : SshTunnel) :
    (∃ pre, s.StopTrace = pre ++ TunnelEvent.setWillClose ::
          (s.localConns.map TunnelEvent.closeLocal ++ s.sshConns.map TunnelEvent.closeSsh ++
           s.remoteConns.map TunnelEvent.closeRemote ++ [TunnelEvent.setIsClosed]) ∧
        ∀ e ∈ pre, eventIsClose e = false) ∧
    s.Stop.willClose = true ∧ s.Stop.isClosed = true ∧
    (∀ c ∈ s.Stop.localConns, c.closed = true) ∧
    (∀ c ∈ s.Stop.sshConns, c.closed = true) ∧
    (∀ c ∈ s.Stop.remoteConns, c.closed = true) := by
  refine ⟨⟨[TunnelEvent.log "close conns established by tunnl"], rfl, ?_⟩, rfl, rfl, ?_, ?_, ?_⟩
  · intro e he
    simp only [List.mem_singleton] at he
    subst he
    rfl
  all_goals
    intro c hc
    simp only [SshTunnel.Stop, List.mem_map] at hc
    obtain ⟨a, _, rfl⟩ := hc
    rfl

/-- Claim C2: when a copy task terminates with an I/O error, the error
is logged if and only if `willClose` is false at that moment, and in
either case the pipeline's local socket, remote stream and SSH session
are all closed and `isClosed` is set. -/
theorem forwarder_error_classification_and_teardown (p : ForwardPipeline) (e : String) :
    ((forwarderFunc p (some e)).2 ≠ [] ↔ p.willClose = false) ∧
    (forwarderFunc p (some e)).1.localConn.closed = true ∧
    (forwarderFunc p (some e)).1.remoteConn.closed = true ∧
    (forwarderFunc p (some e)).1.serverConn.closed = true ∧
    (forwarderFunc p (some e)).1.isClosed = true := by
  cases hw : p.willClose <;> simp [forwarderFunc, Conn.close, hw]

/-- Claim C5: when the local listener bind fails, `Start` delivers
`false` on the readiness channel (never `true`), leaves the engine
state — in particular every resource collection — unchanged, and the
accept loop never runs: no connection is accepted and no forwarding
pipeline is spawned, whatever accepts could have been available. -/
theorem start_bind_failure_never_accepts (s : SshTunnel) (e : String)
    (accepts : List (Except String Conn)) :
    (s.Start (some e) accepts).1 = s ∧
    StartEvent.sendReady false ∈ (s.Start (some e) accepts).2 ∧
    StartEvent.sendReady true ∉ (s.Start (some e) accepts).2 ∧
    (∀ c : Conn, StartEvent.acceptConn c ∉ (s.Start (some e) accepts).2) ∧
    (∀ c : Conn, StartEvent.spawnForward c ∉ (s.Start (some e) accepts).2) := by
  simp [SshTunnel.Start]

/-- Claim C10: for every payload, including the zero-length and
multi-chunk cases, the bytes read from the client on the local socket
are written to the remote stream byte-for-byte and in order, and the
bytes read from the destination on the remote stream are written to the
local socket byte-for-byte and in order. -/
theorem forward_copies_preserve_bytes (clientChunks destChunks : List (List Nat)) :
    forwardConnectionCopies (clientChunks.map ReadResult.chunk ++ [ReadResult.eof])
        (destChunks.map ReadResult.chunk ++ [ReadResult.eof]) =
      ((clientChunks.flatten, none), (destChunks.flatten, none)) := by
  simp [forwardConnectionCopies, ioCopy_chunks_then_eof]

/-- Claim C1 (code-bug demonstration): `FastStartTunnel` returns the
same successful result whether the readiness channel delivered `false`
(bind failure) or `true` — at the example program's configuration it
yields a tunnel with a nil error even though the bind failed, instead
of surfacing the bind error. -/
theorem fastStart_ok_despite_bind_failure :
    FastStartTunnel exampleConfig 0 false = FastStartTunnel exampleConfig 0 true ∧
    (FastStartTunnel exampleConfig 0 false).toOption.isSome = true :=
  ⟨rfl, rfl⟩

/-- Claim C6 (counterexample): on the bare host `"10.10.10.10"` — no
protocol prefix, no port suffix — `getEndpointInfo` does not resolve
the port to 80; it fails with a default-port lookup error for the empty
protocol. -/
theorem getEndpointInfo_bare_host_fails :
    getEndpointInfo "10.10.10.10" =
      Except.error "could not get default port for protocol " ∧
    getEndpointInfo "10.10.10.10" ≠ Except.ok ("", "10.10.10.10", "80") := by
  refine ⟨rfl, ?_⟩
  intro h
  exact Except.noConfusion h

/-- Claim C6 (amended): for every endpoint string with no protocol
prefix and no port suffix, `getEndpointInfo` keeps the protocol empty,
finds no entry for it in the default-port table, and returns the
could-not-get-default-port configuration error. -/
theorem getEndpointInfo_no_protocol_no_port_errors (s : String)
    (hproto : goSplitProtoSep s = [s]) (hport : goSplitColon s = [s]) :
    getEndpointInfo s = Except.error "could not get default port for protocol " := by
  simp [getEndpointInfo, hproto, hport, defaultProtocolPorts]

/-- Witness for the amended C6 at the concrete input `"10.10.10.11"`. -/
theorem getEndpointInfo_no_protocol_no_port_errors_witness :
    goSplitProtoSep "10.10.10.11" = ["10.10.10.11"] ∧
    goSplitColon "10.10.10.11" = ["10.10.10.11"] ∧
    getEndpointInfo "10.10.10.11" =
      Except.error "could not get default port for protocol " :=
  ⟨by decide, by decide,
    getEndpointInfo_no_protocol_no_port_errors "10.10.10.11" (by decide) (by decide)⟩

/-- Claim C7: for a destination whose remote part carries no port and a
non-empty host, `BuildTunnelConfig` resolves `RemotePort` to 80 when
the protocol prefix is `"http"` (which `getTunneledProtocolAndRemoteAddr`
also yields when the prefix is absent), to 443 when it is `"https"`,
and fails with a configuration error for any other protocol. -/
theorem buildTunnelConfig_default_ports
    (protocol tunnelEndpoint destEndpoint user password p rest : String)
    (hsplit : getTunneledProtocolAndRemoteAddr destEndpoint = (p, rest))
    (hnoport : goSplitColon rest = [rest])
    (hhost : rest.length ≠ 0) :
    (p = "http" →
      BuildTunnelConfig protocol tunnelEndpoint destEndpoint user password =
        Except.ok { Protocol := protocol, TunnelEndpoint := tunnelEndpoint, Username := user,
                    Password := password, RemoteAddr := rest, RemotePort := 80,
                    TunneledProtocol := "http" }) ∧
    (p = "https" →
      BuildTunnelConfig protocol tunnelEndpoint destEndpoint user password =
        Except.ok { Protocol := protocol, TunnelEndpoint := tunnelEndpoint, Username := user,
                    Password := password, RemoteAddr := rest, RemotePort := 443,
                    TunneledProtocol := "https" }) ∧
    (p ≠ "http" → p ≠ "https" →
      BuildTunnelConfig protocol tunnelEndpoint destEndpoint user password =
        Except.error ("could not get default port for protocol " ++ p)) := by
  refine ⟨?_, ?_, ?_⟩
  · intro hp
    subst hp
    simp [BuildTunnelConfig, hsplit, splitAddrAndPort, hnoport, defaultProtocolPorts, hhost,
      show atoi "80" = some 80 from rfl, show ("80" : String).length = 2 from rfl]
  · intro hp
    subst hp
    simp [BuildTunnelConfig, hsplit, splitAddrAndPort, hnoport, defaultProtocolPorts, hhost,
      show atoi "443" = some 443 from rfl, show ("443" : String).length = 3 from rfl]
  · intro hp1 hp2
    simp [BuildTunnelConfig, hsplit, splitAddrAndPort, hnoport, defaultProtocolPorts, hp1, hp2]

/-- Witness for C7 at the concrete destination `"https://myhost"`. -/
theorem buildTunnelConfig_default_ports_witness :
    BuildTunnelConfig "SSH" "1.2.3.4:22" "https://myhost" "u" "pw" =
      Except.ok { Protocol := "SSH", TunnelEndpoint := "1.2.3.4:22", Username := "u",
                  Password := "pw", RemoteAddr := "myhost", RemotePort := 443,
                  TunneledProtocol := "https" } :=
  (buildTunnelConfig_default_ports "SSH" "1.2.3.4:22" "https://myhost" "u" "pw" "https" "myhost"
    (by decide) (by decide) (by decide)).2.1 rfl

/-- Claim C9: when the parsed SSH server address equals the configured
final remote address, the factory substitutes `"localhost"` as the
final destination host, so the stored remote endpoint (the address
later dialed through the SSH session, and the body of
`GetRemoteEndpoint`) is `localhost:RemotePort`. -/
theorem factory_substitutes_localhost (cfg : TunnelConfig) (rnd : Nat) (a : String) (p : Int)
    (hssh : getSSHServerAddrAndPort cfg = Except.ok (a, p))
    (heq : a = cfg.RemoteAddr) :
    ∃ t, SshTunnelFactory cfg rnd = Except.ok t ∧
      t.remoteEndpoint = "localhost:" ++ toString cfg.RemotePort ∧
      t.GetRemoteEndpoint =
        cfg.TunneledProtocol ++ "://" ++ ("localhost:" ++ toString cfg.RemotePort) := by
  subst heq
  refine ⟨{ name := cfg.Protocol, sshUsername := "", sshPassword := "",
            localTunnelEndpoint := "localhost:" ++ toString (getRandomListeningPort rnd),
            serverTunnelEndpoint := cfg.RemoteAddr ++ ":" ++ toString p,
            remoteEndpoint := "localhost:" ++ toString cfg.RemotePort,
            config := { user := cfg.Username, password := cfg.Password },
            tunneledProtocol := cfg.TunneledProtocol,
            localConns := [], sshConns := [], remoteConns := [],
            willClose := false, isClosed := false }, ?_, rfl, rfl⟩
  simp [SshTunnelFactory, hssh, getRelativeRemoteAddr]

/-- The concrete configuration used by the C9 witness: the SSH endpoint
host equals the final remote address. -/
def sameHostConfig : TunnelConfig :=
  { Protocol := "SSH", TunnelEndpoint := "1.2.3.4:22", Username := "root",
    Password := "pw", RemoteAddr := "1.2.3.4", RemotePort := 80,
    TunneledProtocol := "http" }

/-- Witness for C9 at `sameHostConfig`. -/
theorem factory_substitutes_localhost_witness :
    ∃ t, SshTunnelFactory sameHostConfig 0 = Except.ok t ∧
      t.remoteEndpoint = "localhost:" ++ toString sameHostConfig.RemotePort ∧
      t.GetRemoteEndpoint = sameHostConfig.TunneledProtocol ++ "://" ++
        ("localhost:" ++ toString sameHostConfig.RemotePort) :=
  factory_substitutes_localhost sameHostConfig 0 "1.2.3.4" 22 rfl rfl

end GoTunnel
